import Mathlib

/-!
# Verification of the Arduino UNO R4 WiFi runtime crate

A shallow embedding of the crate's runtime and peripheral layer:

* `src/lib.rs` — boot sequence: RAM initialization (`initialize_ram`, `Reset`);
* `src/peripherals/registers.rs` — volatile read-modify-write primitives;
* `src/peripherals/systick.rs` — the SysTick timer driver;
* `src/peripherals/pins.rs` — GPIO pin type-state machine and the port registry.

Machine integers are modelled as `Nat`; operations that mask to a register
width do so explicitly, mirroring the bitmasks in the source. Memory-mapped
registers become explicit state records threaded through the operations, and
the program's mutable statics (`PORTS`, `SYSTICK_CREATED`) become explicit
state passed between successive calls.
-/

namespace ArduinoRT

/-! ## Register primitives (`src/peripherals/registers.rs`)

`volatile_or` / `volatile_and` / `volatile_xor` read the register, combine the
read value with the bitmask, and write the result back. In the embedding a
register's current value is a `Nat`, and each primitive returns the value
written back; the surrounding operation stores it into the register state. -/

/-- `volatile_or`: OR bitmask into the register (new register value). -/
def volatile_or (reg bitmask : Nat) : Nat := reg ||| bitmask

/-- `volatile_and`: AND bitmask into the register (new register value). -/
def volatile_and (reg bitmask : Nat) : Nat := reg &&& bitmask

/-- `volatile_xor`: XOR bitmask into the register (new register value). -/
def volatile_xor (reg bitmask : Nat) : Nat := reg ^^^ bitmask

/-- Rust `!x` on a `u32`: bitwise complement within 32 bits. -/
def u32_not (x : Nat) : Nat := 0xffffffff ^^^ x

/-! ## Boot sequence (`src/lib.rs`) -/

/-- Byte-addressed memory, as seen by `initialize_ram`. -/
def Mem : Type := Nat → Nat

/-- `core::ptr::write_bytes(dst, val, count)`: set `count` bytes starting at
`dst` to `val`. -/
def write_bytes (mem : Mem) (dst val count : Nat) : Mem :=
  fun a => if dst ≤ a ∧ a < dst + count then val else mem a

/-- `core::ptr::copy_nonoverlapping(src, dst, count)`: copy `count` bytes from
`src` to `dst`. The source bytes are read from the pre-call memory, which is
exact when the two ranges do not overlap (the function's contract). -/
def copy_nonoverlapping (mem : Mem) (src dst count : Nat) : Mem :=
  fun a => if dst ≤ a ∧ a < dst + count then mem (src + (a - dst)) else mem a

/-- `initialize_ram`: zero the `.bss` region `[_sbss, _ebss)` (length
`_ebss - _sbss`), then copy `_edata - _sdata` bytes from the flash image at
`_sidata` to the `.data` region at `_sdata`, in that order. -/
def initialize_ram (mem : Mem) (sbss ebss sdata edata sidata : Nat) : Mem :=
  let count_bss := ebss - sbss
  let mem1 := write_bytes mem sbss 0 count_bss
  let count_data := edata - sdata
  copy_nonoverlapping mem1 sidata sdata count_data

/-- `Reset`: the reset handler calls `initialize_ram()` and then `__main()`.
This function returns the memory state at the moment `__main` is invoked:
both initialization steps have completed, in order, strictly before the user
entry function runs. -/
def Reset_mem_at_entry (mem : Mem) (sbss ebss sdata edata sidata : Nat) : Mem :=
  initialize_ram mem sbss ebss sdata edata sidata

/-! ## SysTick timer (`src/peripherals/systick.rs`) -/

/-- The SysTick driver's local state: only the `enabled` flag.
Authoritative timer state lives in the hardware registers. -/
structure SysTick where
  enabled : Bool
  deriving DecidableEq

/-- The SysTick hardware registers (CSR, RVR, CVR, CALIB), each a 32-bit
value modelled as `Nat`. -/
structure SysTickRegs where
  csr : Nat
  rvr : Nat
  cvr : Nat
  calib : Nat
  deriving DecidableEq

/-- Bit 16 of CSR: the COUNTFLAG / "timer wrapped" bit (`1 << 16`). -/
def countflagBit : Nat := 1 <<< 16

/-- Reading CSR. Per the Armv7-M manual cited by the source (and the source's
own comment on `CSR`: "This bit is set to 0 every time we read this
register"), a read returns the current value and clears bit 16. -/
def csr_read (regs : SysTickRegs) : Nat × SysTickRegs :=
  (regs.csr, { regs with csr := regs.csr &&& u32_not countflagBit })

/-- Writing CSR. Per the Armv7-M manual cited by the source, COUNTFLAG
(bit 16) is read-only: a write updates the other bits, leaving bit 16 as it
was. -/
def csr_write (regs : SysTickRegs) (v : Nat) : SysTickRegs :=
  { regs with csr := (v &&& u32_not countflagBit) ||| (regs.csr &&& countflagBit) }

/-- `SysTick::new()`. -/
def SysTick.new : SysTick := { enabled := false }

/-- `SysTick::instance()`: returns `Some(SysTick::new())` when the
`SYSTICK_CREATED` flag is unset, `None` otherwise. The result pairs the
returned option with the flag's value after the call; note that the source
never assigns `SYSTICK_CREATED = true`, so the flag is returned unchanged. -/
def SysTick.instance_fn (systick_created : Bool) : Option SysTick × Bool :=
  if !systick_created then
    (some SysTick.new, systick_created)
  else
    (none, systick_created)

/-- The `SYSTICK_CREATED` flag before the `n`-th call to
`SysTick::instance()` (it starts the run as `false`). -/
def systickCreatedBefore : Nat → Bool
  | 0 => false
  | n + 1 => (SysTick.instance_fn (systickCreatedBefore n)).2

/-- The result of the `n`-th call (0-based) to `SysTick::instance()` in a
program run. -/
def systickInstanceCall (n : Nat) : Option SysTick :=
  (SysTick.instance_fn (systickCreatedBefore n)).1

/-- `SysTick::get_ticks_per_10ms()`: CALIB masked to its low 24 bits. -/
def SysTick.get_ticks_per_10ms (regs : SysTickRegs) : Nat :=
  regs.calib &&& 0x00ffffff

/-- `SysTick::enable()`: `CSR.volatile_or(1)` then `self.enabled = true`. -/
def SysTick.enable (st : SysTick) (regs : SysTickRegs) : SysTick × SysTickRegs :=
  let rv := csr_read regs
  let regs2 := csr_write rv.2 (volatile_or rv.1 1)
  ({ st with enabled := true }, regs2)

/-- `SysTick::disable()`: `CSR.volatile_and(!1)` then `self.enabled = false`. -/
def SysTick.disable (st : SysTick) (regs : SysTickRegs) : SysTick × SysTickRegs :=
  let rv := csr_read regs
  let regs2 := csr_write rv.2 (volatile_and rv.1 (u32_not 1))
  ({ st with enabled := false }, regs2)

/-- `SysTick::is_enabled()`: the locally tracked flag. -/
def SysTick.is_enabled (st : SysTick) : Bool := st.enabled

/-- `SysTick::timer_wrapped()`: read CSR and test bit 16 (the read clears the
bit in the register). -/
def SysTick.timer_wrapped (regs : SysTickRegs) : Bool × SysTickRegs :=
  let rv := csr_read regs
  (rv.1 &&& (1 <<< 16) != 0, rv.2)

/-- `SysTick::get_current_value()`. -/
def SysTick.get_current_value (regs : SysTickRegs) : Nat := regs.cvr

/-- `SysTick::reset()`: write 0 to CVR. -/
def SysTick.reset (st : SysTick) (regs : SysTickRegs) : SysTick × SysTickRegs :=
  (st, { regs with cvr := 0 })

/-- `SysTick::set_reset_value(reset_value)`: clamp to the low 24 bits and
write the RVR register. -/
def SysTick.set_reset_value (st : SysTick) (regs : SysTickRegs) (reset_value : Nat) :
    SysTick × SysTickRegs :=
  let clamped_reset_value := reset_value &&& 0x00ffffff
  (st, { regs with rvr := clamped_reset_value })

/-- `SysTick::get_reset_value()`: RVR masked to its low 24 bits. -/
def SysTick.get_reset_value (regs : SysTickRegs) : Nat :=
  regs.rvr &&& 0x00ffffff

/-! ## GPIO pins (`src/peripherals/pins.rs`) -/

/-- A single register write performed while configuring a pin: either to the
Pin Write Protection register (PWPR) or to the pin's Pin Function Select
register (PFSR). -/
inductive RegWrite where
  | pwpr (val : Nat)
  | pfsr (val : Nat)
  deriving DecidableEq, BEq

/-- `PinWriteProtection::unlock()`: write 0, then write `1 << 6` to PWPR. -/
def unlock_writes : List RegWrite := [.pwpr 0, .pwpr (1 <<< 6)]

/-- `PinWriteProtection::lock()`: write 0, then write `1 << 7` to PWPR. -/
def lock_writes : List RegWrite := [.pwpr 0, .pwpr (1 <<< 7)]

/-- `PinFunctionSelect::set_to_input()`: unlock, write 0 to PFSR, lock. -/
def set_to_input_writes : List RegWrite := unlock_writes ++ [.pfsr 0] ++ lock_writes

/-- `PinFunctionSelect::set_to_input_pullup()`: unlock, write `1 << 4` to
PFSR, lock. -/
def set_to_input_pullup_writes : List RegWrite := unlock_writes ++ [.pfsr (1 <<< 4)] ++ lock_writes

/-- `PinFunctionSelect::set_to_output()`: unlock, write `1 << 2` to PFSR,
lock. -/
def set_to_output_writes : List RegWrite := unlock_writes ++ [.pfsr (1 <<< 2)] ++ lock_writes

/-- Is the write at position `i` of the trace immediately preceded by the
unlock sequence and immediately followed by the lock sequence? -/
def bracketed_at (t : List RegWrite) (i : Nat) : Bool :=
  decide (2 ≤ i) && (t.get? (i - 2) == some (.pwpr 0)) && (t.get? (i - 1) == some (.pwpr (1 <<< 6)))
    && (t.get? (i + 1) == some (.pwpr 0)) && (t.get? (i + 2) == some (.pwpr (1 <<< 7)))

/-- Every PFSR write in the trace is bracketed by the unlock and lock
sequences. -/
def pfsr_writes_bracketed (t : List RegWrite) : Bool :=
  (List.range t.length).all fun i =>
    match t.get? i with
    | some (.pfsr _) => bracketed_at t i
    | _ => true

/-- Walk the trace tracking the PWPR register's value (initially `pwpr`) and
check that at every PFSR write, PWPR holds the unlock bit (bit 6): the
function-select register is never written while write-protected. -/
def pfsr_writes_unlocked (t : List RegWrite) (pwpr : Nat) : Bool :=
  match t with
  | [] => true
  | .pwpr v :: rest => pfsr_writes_unlocked rest v
  | .pfsr _ :: rest => ((pwpr &&& (1 <<< 6)) != 0) && pfsr_writes_unlocked rest pwpr

/-- The fixed hardware identity of a pin: `(PORT_NO, PIN_NO)`. -/
structure PinId where
  port_no : Nat
  pin_no : Nat
  deriving DecidableEq

/-- A pin in configuration state `PinModeUnknown`. -/
structure PinUnknown where
  id : PinId
  deriving DecidableEq

/-- A pin in configuration state `PinModeOutput`. -/
structure PinOutput where
  id : PinId
  deriving DecidableEq

/-- A pin in configuration state `PinModeInput`. -/
structure PinInput where
  id : PinId
  deriving DecidableEq

/-- A pin in configuration state `PinModeInputPullup`. -/
structure PinInputPullup where
  id : PinId
  deriving DecidableEq

/-- `Pin::into_unknown()`: forget the configuration (no register writes). -/
def PinUnknown.into_unknown (p : PinUnknown) : PinUnknown := ⟨p.id⟩

/-- `Pin::into_output()`: perform `set_to_output()` on the pin's PFSR and
return the pin in the Output state, paired with the register writes made. -/
def PinUnknown.into_output (p : PinUnknown) : PinOutput × List RegWrite :=
  (⟨p.id⟩, set_to_output_writes)

/-- `Pin::into_input()`: perform `set_to_input()` and return the pin in the
Input state, paired with the register writes made. -/
def PinUnknown.into_input (p : PinUnknown) : PinInput × List RegWrite :=
  (⟨p.id⟩, set_to_input_writes)

/-- `Pin::into_input_pullup()`: perform `set_to_input_pullup()` and return
the pin in the InputWithPullup state, paired with the register writes made. -/
def PinUnknown.into_input_pullup (p : PinUnknown) : PinInputPullup × List RegWrite :=
  (⟨p.id⟩, set_to_input_pullup_writes)

/-- The output-control registers of one port: `PCNTR1` (output control) and
`PCNTR2` (input state). -/
structure PortRegs where
  pcntr1 : Nat
  pcntr2 : Nat
  deriving DecidableEq

/-- `PortControl::pin_is_set_high(pin)`: test bit `pin + 16` of PCNTR1. -/
def pin_is_set_high (regs : PortRegs) (pin : Nat) : Bool :=
  regs.pcntr1 &&& (1 <<< (pin + 16)) != 0

/-- `PortControl::pin_is_high(pin)`: test bit `pin` of PCNTR2. -/
def pin_is_high (regs : PortRegs) (pin : Nat) : Bool :=
  regs.pcntr2 &&& (1 <<< pin) != 0

/-- `PortControl::set_pin_high(pin)`: OR bit `pin + 16` into PCNTR1. -/
def set_pin_high (regs : PortRegs) (pin : Nat) : PortRegs :=
  { regs with pcntr1 := volatile_or regs.pcntr1 (1 <<< (pin + 16)) }

/-- `PortControl::set_pin_low(pin)`: AND the complement of bit `pin + 16`
into PCNTR1. -/
def set_pin_low (regs : PortRegs) (pin : Nat) : PortRegs :=
  { regs with pcntr1 := volatile_and regs.pcntr1 (u32_not (1 <<< (pin + 16))) }

/-- `PortControl::toggle_pin_output(pin)`: XOR bit `pin + 16` into PCNTR1. -/
def toggle_pin_output (regs : PortRegs) (pin : Nat) : PortRegs :=
  { regs with pcntr1 := volatile_xor regs.pcntr1 (1 <<< (pin + 16)) }

/-- `OutputPin::is_set_high` for a pin in the Output state. -/
def PinOutput.is_set_high (p : PinOutput) (regs : PortRegs) : Bool :=
  pin_is_set_high regs p.id.pin_no

/-- `OutputPin::set_high` for a pin in the Output state. -/
def PinOutput.set_high (p : PinOutput) (regs : PortRegs) : PortRegs :=
  set_pin_high regs p.id.pin_no

/-- `OutputPin::set_low` for a pin in the Output state. -/
def PinOutput.set_low (p : PinOutput) (regs : PortRegs) : PortRegs :=
  set_pin_low regs p.id.pin_no

/-- `OutputPin::toggle` for a pin in the Output state. -/
def PinOutput.toggle (p : PinOutput) (regs : PortRegs) : PortRegs :=
  toggle_pin_output regs p.id.pin_no

/-- Status of a GPIO pin (`PinStatus`). -/
inductive PinStatus where
  | Low
  | High
  deriving DecidableEq

/-- `OutputPin::set(status)`: dispatch to `set_low` / `set_high`. -/
def PinOutput.set (p : PinOutput) (regs : PortRegs) (status : PinStatus) : PortRegs :=
  match status with
  | .Low => p.set_low regs
  | .High => p.set_high regs

/-- `InputPin::is_high` for a pin in the Input state. -/
def PinInput.is_high (p : PinInput) (regs : PortRegs) : Bool :=
  pin_is_high regs p.id.pin_no

/-- `InputPin::is_input_pullup` for a pin in the Input state: fixed `false`. -/
def PinInput.is_input_pullup (_ : PinInput) : Bool := false

/-- `InputPin::is_low` (default method): the negation of `is_high`. -/
def PinInput.is_low (p : PinInput) (regs : PortRegs) : Bool :=
  !(p.is_high regs)

/-- `InputPin::get_status` (default method). -/
def PinInput.get_status (p : PinInput) (regs : PortRegs) : PinStatus :=
  if p.is_high regs then .High else .Low

/-- `InputPin::is_high` for a pin in the InputWithPullup state. -/
def PinInputPullup.is_high (p : PinInputPullup) (regs : PortRegs) : Bool :=
  pin_is_high regs p.id.pin_no

/-- `InputPin::is_input_pullup` for a pin in the InputWithPullup state:
fixed `true`. -/
def PinInputPullup.is_input_pullup (_ : PinInputPullup) : Bool := true

/-- `InputPin::is_low` (default method) for InputWithPullup. -/
def PinInputPullup.is_low (p : PinInputPullup) (regs : PortRegs) : Bool :=
  !(p.is_high regs)

/-- `InputPin::get_status` (default method) for InputWithPullup. -/
def PinInputPullup.get_status (p : PinInputPullup) (regs : PortRegs) : PinStatus :=
  if p.is_high regs then .High else .Low

/-! ### Ports and the port registry -/

/-- `Port0` (zero-sized in the source). -/
structure Port0 where
  mk ::
  deriving DecidableEq

/-- `Port1` (zero-sized in the source). -/
structure Port1 where
  mk ::
  deriving DecidableEq

/-- `Port3` (zero-sized in the source). -/
structure Port3 where
  mk ::
  deriving DecidableEq

/-- `Port4` (zero-sized in the source). -/
structure Port4 where
  mk ::
  deriving DecidableEq

/-- `Port0Pins`: pins 0, 1, 2, 14 of port 0, each Unconfigured. -/
structure Port0Pins where
  p000 : PinUnknown
  p001 : PinUnknown
  p002 : PinUnknown
  p014 : PinUnknown
  deriving DecidableEq

/-- `Port1Pins`: pins 0-7, 11, 12 of port 1, each Unconfigured. -/
structure Port1Pins where
  p100 : PinUnknown
  p101 : PinUnknown
  p102 : PinUnknown
  p103 : PinUnknown
  p104 : PinUnknown
  p105 : PinUnknown
  p106 : PinUnknown
  p107 : PinUnknown
  p111 : PinUnknown
  p112 : PinUnknown
  deriving DecidableEq

/-- `Port3Pins`: pins 1-4 of port 3, each Unconfigured. -/
structure Port3Pins where
  p301 : PinUnknown
  p302 : PinUnknown
  p303 : PinUnknown
  p304 : PinUnknown
  deriving DecidableEq

/-- `Port4Pins`: pins 10, 11 of port 4, each Unconfigured. -/
structure Port4Pins where
  p410 : PinUnknown
  p411 : PinUnknown
  deriving DecidableEq

/-- `Port0::split()`: one Unconfigured pin value per physical pin of port 0. -/
def Port0.split (_ : Port0) : Port0Pins :=
  { p000 := ⟨⟨0, 0⟩⟩, p001 := ⟨⟨0, 1⟩⟩, p002 := ⟨⟨0, 2⟩⟩, p014 := ⟨⟨0, 14⟩⟩ }

/-- `Port1::split()`. -/
def Port1.split (_ : Port1) : Port1Pins :=
  { p100 := ⟨⟨1, 0⟩⟩, p101 := ⟨⟨1, 1⟩⟩, p102 := ⟨⟨1, 2⟩⟩, p103 := ⟨⟨1, 3⟩⟩,
    p104 := ⟨⟨1, 4⟩⟩, p105 := ⟨⟨1, 5⟩⟩, p106 := ⟨⟨1, 6⟩⟩, p107 := ⟨⟨1, 7⟩⟩,
    p111 := ⟨⟨1, 11⟩⟩, p112 := ⟨⟨1, 12⟩⟩ }

/-- `Port3::split()`. -/
def Port3.split (_ : Port3) : Port3Pins :=
  { p301 := ⟨⟨3, 1⟩⟩, p302 := ⟨⟨3, 2⟩⟩, p303 := ⟨⟨3, 3⟩⟩, p304 := ⟨⟨3, 4⟩⟩ }

/-- `Port4::split()`. -/
def Port4.split (_ : Port4) : Port4Pins :=
  { p410 := ⟨⟨4, 10⟩⟩, p411 := ⟨⟨4, 11⟩⟩ }

/-- `ArduinoPins`: the pins exposed on the Arduino board, labelled with the
board silkscreen names. -/
structure ArduinoPins where
  d0 : PinUnknown
  d1 : PinUnknown
  d2 : PinUnknown
  d3 : PinUnknown
  d4 : PinUnknown
  d5 : PinUnknown
  d6 : PinUnknown
  d7 : PinUnknown
  d8 : PinUnknown
  d9 : PinUnknown
  d10 : PinUnknown
  d11 : PinUnknown
  d12 : PinUnknown
  d13 : PinUnknown
  a0 : PinUnknown
  a1 : PinUnknown
  a2 : PinUnknown
  a3 : PinUnknown
  a4 : PinUnknown
  a5 : PinUnknown
  deriving DecidableEq

/-- `Ports`: the bundle of all physical ports. -/
structure Ports where
  port0 : Port0
  port1 : Port1
  port3 : Port3
  port4 : Port4
  deriving DecidableEq

/-- The initial value of the `PORTS` static: `Some` of the port bundle. -/
def PORTS_init : Option Ports :=
  some { port0 := Port0.mk, port1 := Port1.mk, port3 := Port3.mk, port4 := Port4.mk }

/-- `get_pins()`: `PORTS.take()?`, then split each port and assemble the
board-level pin struct. Takes the current value of the `PORTS` static and
returns the result together with the static's new value (`take` always
leaves `None` behind on success). -/
def get_pins : Option Ports → Option ArduinoPins × Option Ports
  | some ports =>
    let port0_pins := ports.port0.split
    let port1_pins := ports.port1.split
    let port3_pins := ports.port3.split
    let port4_pins := ports.port4.split
    (some
      { d0 := port3_pins.p301, d1 := port3_pins.p302, d2 := port1_pins.p104,
        d3 := port1_pins.p105, d4 := port1_pins.p106, d5 := port1_pins.p107,
        d6 := port1_pins.p111, d7 := port1_pins.p112, d8 := port3_pins.p304,
        d9 := port3_pins.p303, d10 := port1_pins.p103, d11 := port4_pins.p411,
        d12 := port4_pins.p410, d13 := port1_pins.p102, a0 := port0_pins.p014,
        a1 := port0_pins.p000, a2 := port0_pins.p001, a3 := port0_pins.p002,
        a4 := port1_pins.p101, a5 := port1_pins.p100 },
     none)
  | none => (none, none)

/-- The value of the `PORTS` static before the `n`-th call to `get_pins`. -/
def portsStateBefore : Nat → Option Ports
  | 0 => PORTS_init
  | n + 1 => (get_pins (portsStateBefore n)).2

/-- The result of the `n`-th call (0-based) to `get_pins` in a program run. -/
def getPinsCall (n : Nat) : Option ArduinoPins :=
  (get_pins (portsStateBefore n)).1

/-- The pin bundle handed out by the first `get_pins` call. -/
def initial_arduino_pins : ArduinoPins :=
  { d0 := ⟨⟨3, 1⟩⟩, d1 := ⟨⟨3, 2⟩⟩, d2 := ⟨⟨1, 4⟩⟩, d3 := ⟨⟨1, 5⟩⟩,
    d4 := ⟨⟨1, 6⟩⟩, d5 := ⟨⟨1, 7⟩⟩, d6 := ⟨⟨1, 11⟩⟩, d7 := ⟨⟨1, 12⟩⟩,
    d8 := ⟨⟨3, 4⟩⟩, d9 := ⟨⟨3, 3⟩⟩, d10 := ⟨⟨1, 3⟩⟩, d11 := ⟨⟨4, 11⟩⟩,
    d12 := ⟨⟨4, 10⟩⟩, d13 := ⟨⟨1, 2⟩⟩, a0 := ⟨⟨0, 14⟩⟩, a1 := ⟨⟨0, 0⟩⟩,
    a2 := ⟨⟨0, 1⟩⟩, a3 := ⟨⟨0, 2⟩⟩, a4 := ⟨⟨1, 1⟩⟩, a5 := ⟨⟨1, 0⟩⟩ }

/-! ## Helper lemmas -/

/-- ANDing with a single-bit mask yields zero exactly when that bit is unset. -/
theorem land_one_shiftLeft_eq_zero_iff (x n : Nat) :
    x &&& (1 <<< n) = 0 ↔ x.testBit n = false := by
  rw [Nat.one_shiftLeft, Nat.and_two_pow]
  have h2 : 0 < 2 ^ n := Nat.two_pow_pos n
  cases h : x.testBit n
  · simp
  · simp

/-- After any number of `get_pins` calls, the `PORTS` static is empty. -/
theorem portsStateBefore_succ (n : Nat) : portsStateBefore (n + 1) = none := by
  induction n with
  | zero => rfl
  | succ n ih =>
    show (get_pins (portsStateBefore (n + 1))).2 = none
    rw [ih]
    rfl

/-! ## Claim theorems -/

/-- C1 (code bug): the claim says `SysTick::instance` returns `Some` on the
first call and `None` on every later call, tracked by the `SYSTICK_CREATED`
boot flag. The source checks the flag but never sets it, so the second call
(the failing input) still returns `Some SysTick::new()` and the flag is still
`false` afterwards, contradicting the take-once contract stated in the
function's own doc comment. -/
theorem c1_systick_instance_second_call_still_present :
    systickInstanceCall 1 = some SysTick.new ∧ systickCreatedBefore 2 = false :=
  ⟨rfl, rfl⟩

/-- C2: the first call to `get_pins` returns `Some` of the full board pin
bundle, and every subsequent call returns `None`. -/
theorem c2_get_pins_take_once :
    getPinsCall 0 = some initial_arduino_pins ∧ ∀ n : Nat, getPinsCall (n + 1) = none := by
  constructor
  · rfl
  · intro n
    show (get_pins (portsStateBefore (n + 1))).1 = none
    rw [portsStateBefore_succ]
    rfl

/-- C3: at the moment the reset handler transfers control to the user entry
function, the zero-fill region reads 0 at every byte and the writable-data
execution region holds the corresponding source bytes, given that the
`.data` destination and the `.data` source image are disjoint from the
`.bss` region (the linker's layout contract), for regions of any length. -/
theorem c3_initialize_ram_correct (mem : Mem) (sbss ebss sdata edata sidata : Nat)
    (hbss_data : ∀ a, sbss ≤ a → a < ebss → ¬(sdata ≤ a ∧ a < sdata + (edata - sdata)))
    (hbss_src : ∀ i, i < edata - sdata →
      ¬(sbss ≤ sidata + i ∧ sidata + i < sbss + (ebss - sbss))) :
    (∀ a, sbss ≤ a → a < ebss →
      Reset_mem_at_entry mem sbss ebss sdata edata sidata a = 0) ∧
    (∀ i, i < edata - sdata →
      Reset_mem_at_entry mem sbss ebss sdata edata sidata (sdata + i) = mem (sidata + i)) := by
  constructor
  · intro a h1 h2
    have hnd := hbss_data a h1 h2
    simp only [Reset_mem_at_entry, initialize_ram, copy_nonoverlapping, write_bytes]
    rw [if_neg hnd, if_pos ⟨h1, by omega⟩]
  · intro i hi
    have hns := hbss_src i hi
    simp only [Reset_mem_at_entry, initialize_ram, copy_nonoverlapping, write_bytes]
    rw [if_pos ⟨by omega, by omega⟩]
    have heq : sdata + i - sdata = i := by omega
    rw [heq, if_neg hns]

/-- Witness for C3 at concrete inputs: a 2-byte `.bss` at `[0, 2)` with a
2-byte `.data` at `[4, 6)` copied from `8`; an empty `.bss` with a 1-byte
`.data`; and an empty `.data`. -/
theorem c3_initialize_ram_witness :
    Reset_mem_at_entry (fun a => a + 100) 0 2 4 6 8 0 = 0 ∧
    Reset_mem_at_entry (fun a => a + 100) 0 2 4 6 8 1 = 0 ∧
    Reset_mem_at_entry (fun a => a + 100) 0 2 4 6 8 5 = 109 ∧
    Reset_mem_at_entry (fun a => a + 100) 0 0 4 5 8 4 = 108 ∧
    Reset_mem_at_entry (fun a => a + 100) 0 1 4 4 8 0 = 0 := by
  have h := c3_initialize_ram_correct (fun a => a + 100) 0 2 4 6 8
    (by intro a h1 h2; omega) (by intro i hi; omega)
  have h1 := c3_initialize_ram_correct (fun a => a + 100) 0 0 4 5 8
    (by intro a ha hb; omega) (by intro i hi; omega)
  have h2 := c3_initialize_ram_correct (fun a => a + 100) 0 1 4 4 8
    (by intro a ha hb; omega) (by intro i hi; omega)
  refine ⟨h.1 0 (by omega) (by omega), h.1 1 (by omega) (by omega), ?_, ?_,
    h2.1 0 (by omega) (by omega)⟩
  · simpa using h.2 1 (by omega)
  · simpa using h1.2 0 (by omega)

/-- C4: for every 32-bit value `v` and every prior timer state,
`set_reset_value v` followed by `get_reset_value` returns `v & 0x00FFFFFF`:
the setter clamps to the low 24 bits. -/
theorem c4_reload_value_roundtrip (st : SysTick) (regs : SysTickRegs) (v : Nat) :
    SysTick.get_reset_value (SysTick.set_reset_value st regs v).2 = v &&& 0x00ffffff := by
  show (v &&& 0x00ffffff) &&& 0x00ffffff = v &&& 0x00ffffff
  apply Nat.eq_of_testBit_eq
  intro i
  simp [Nat.testBit_land, Bool.and_assoc]

/-- C5: in each of the three pin-configuration operations (`into_output`,
`into_input`, `into_input_pullup`), every write to the function-select
register is immediately preceded by the unlock sequence (write 0, then
`1 << 6`) and immediately followed by the lock sequence (write 0, then
`1 << 7`) on the write-protection register, and the function-select register
is never written while the write-protection register is locked (bit 6
clear), whatever the register's initial value. -/
theorem c5_pfsr_write_protection (p : PinUnknown) :
    (pfsr_writes_bracketed (p.into_output).2 = true ∧
      pfsr_writes_bracketed (p.into_input).2 = true ∧
      pfsr_writes_bracketed (p.into_input_pullup).2 = true) ∧
    ∀ pwpr : Nat,
      pfsr_writes_unlocked (p.into_output).2 pwpr = true ∧
      pfsr_writes_unlocked (p.into_input).2 pwpr = true ∧
      pfsr_writes_unlocked (p.into_input_pullup).2 pwpr = true := by
  refine ⟨⟨?_, ?_, ?_⟩, fun pwpr => ⟨rfl, rfl, rfl⟩⟩
  · show pfsr_writes_bracketed set_to_output_writes = true
    decide
  · show pfsr_writes_bracketed set_to_input_writes = true
    decide
  · show pfsr_writes_bracketed set_to_input_pullup_writes = true
    decide

/-- C6: board pin d13 (port 1, pin 2) moved to Output, driven high via
`set_high`, then toggled once: `is_set_high` reports `false`, for any
initial port register state. -/
theorem c6_d13_set_high_then_toggle (regs : PortRegs) :
    ((initial_arduino_pins.d13.into_output).1).is_set_high
      (((initial_arduino_pins.d13.into_output).1).toggle
        (((initial_arduino_pins.d13.into_output).1).set_high regs)) = false := by
  have h18 : Nat.testBit 262144 18 = true := by decide
  have h : ((regs.pcntr1 ||| (1 <<< 18)) ^^^ (1 <<< 18)) &&& (1 <<< 18) = 0 := by
    rw [land_one_shiftLeft_eq_zero_iff]
    simp [Nat.testBit_xor, Nat.testBit_lor, h18]
  show ((((regs.pcntr1 ||| (1 <<< 18)) ^^^ (1 <<< 18)) &&& (1 <<< 18)) != 0) = false
  rw [h]
  rfl

/-- C7: toggling an Output pin twice returns the port output-control
register, and hence the driven level observed by `is_set_high`, to its
original value, for every pin and every initial register state. -/
theorem c7_toggle_twice_identity (p : PinOutput) (regs : PortRegs) :
    p.toggle (p.toggle regs) = regs ∧
    (p.toggle (p.toggle regs)).pcntr1 = regs.pcntr1 ∧
    p.is_set_high (p.toggle (p.toggle regs)) = p.is_set_high regs := by
  have h : p.toggle (p.toggle regs) = regs := by
    simp [PinOutput.toggle, toggle_pin_output, volatile_xor, Nat.xor_cancel_right]
  exact ⟨h, by rw [h], by rw [h]⟩

/-- C8: a pin configured as InputWithPullup via `into_input_pullup` answers
`is_input_pullup` with the fixed value `true`, and for every input pin
(Input or InputWithPullup) and every hardware-read outcome, `is_low` is
exactly the negation of `is_high`. -/
theorem c8_input_pullup_and_low_negation (p : PinUnknown) :
    ((p.into_input_pullup).1).is_input_pullup = true ∧
    (∀ (q : PinInput) (regs : PortRegs), q.is_low regs = !(q.is_high regs)) ∧
    (∀ (q : PinInputPullup) (regs : PortRegs), q.is_low regs = !(q.is_high regs)) ∧
    (∀ regs : PortRegs,
      ((p.into_input_pullup).1).is_low regs = !(pin_is_high regs p.id.pin_no)) :=
  ⟨rfl, fun _ _ => rfl, fun _ _ => rfl, fun _ => rfl⟩

/-- C9: `disable` reads the control/status register as part of its
read-modify-write, and that read clears the read-to-clear wrapped bit
(bit 16); the value written back cannot set the read-only bit, so for every
register state, `timer_wrapped` called immediately after `disable` returns
`false`. -/
theorem c9_disable_clears_wrapped (st : SysTick) (regs : SysTickRegs) :
    (SysTick.timer_wrapped (SysTick.disable st regs).2).1 = false := by
  have hcf : (u32_not countflagBit).testBit 16 = false := by decide
  have h : (((regs.csr &&& u32_not 1) &&& u32_not countflagBit) |||
      ((regs.csr &&& u32_not countflagBit) &&& countflagBit)) &&& (1 <<< 16) = 0 := by
    rw [land_one_shiftLeft_eq_zero_iff]
    simp [Nat.testBit_lor, Nat.testBit_land, hcf]
  show ((((regs.csr &&& u32_not 1) &&& u32_not countflagBit) |||
      ((regs.csr &&& u32_not countflagBit) &&& countflagBit)) &&& (1 <<< 16) != 0) = false
  rw [h]
  rfl

/-- C10: `set_reset_value` writes only the reload-value register: the
control/status register, the current-value register, the calibration
register, and the driver's local `enabled` flag are all unchanged; the
reload register receives the clamped value. -/
theorem c10_set_reset_value_frame (st : SysTick) (regs : SysTickRegs) (v : Nat) :
    (SysTick.set_reset_value st regs v).1 = st ∧
    ((SysTick.set_reset_value st regs v).2).csr = regs.csr ∧
    ((SysTick.set_reset_value st regs v).2).cvr = regs.cvr ∧
    ((SysTick.set_reset_value st regs v).2).calib = regs.calib ∧
    ((SysTick.set_reset_value st regs v).2).rvr = v &&& 0x00ffffff :=
  ⟨rfl, rfl, rfl, rfl, rfl⟩

end ArduinoRT
